import Mathlib

/-!
Verification of the extraction-classification-deduplication-scoring pipeline
of the KSA projects repository.

The Python sources are shallowly embedded:
* `src/config.py`         : keyword tables, gazetteer, reliability map
* `src/ai_engine/nlp_engine.py` : rule-based extractor, status classifier,
                              confidence scorer, duplicate check
* `src/database/db_manager.py`  : store operations on an explicit `Store`
* `src/data_processing/pipeline.py` : per-item batch and streaming steps,
                              folded over the input list

Strings are modelled by Lean `String`; Python `str.lower` is modelled by
ASCII lower-casing (every keyword in the tables is either lower-case ASCII
or Arabic, and Arabic characters are fixed points of lower-casing in both
Python and this model).  Floats are modelled by exact rationals.
Timestamps are modelled by a logical clock `now` in the store.
-/

namespace KSA

/-! ## String primitives (Python `lower`, `in`, slicing, `strip`, `split`) -/

/-- ASCII lower-casing of one character; characters outside `A`-`Z`
(including all Arabic letters) are unchanged, as in Python for the
character sets appearing in the keyword tables. -/
def lowerChar (c : Char) : Char :=
  if 'A' ≤ c ∧ c ≤ 'Z' then Char.ofNat (c.toNat + 32) else c

/-- Python `text.lower()` restricted to ASCII case mapping. -/
def pyLower (s : String) : String := String.mk (s.data.map lowerChar)

/-- Does `pat` match at the very start of `s`? -/
def matchesAt (pat s : List Char) : Bool :=
  match pat, s with
  | [], _ => true
  | _ :: _, [] => false
  | p :: ps, c :: cs => p == c && matchesAt ps cs

/-- Does `pat` occur as a contiguous sublist of `l`? -/
def hasSub (pat : List Char) : List Char → Bool
  | [] => pat.isEmpty
  | c :: cs => matchesAt pat (c :: cs) || hasSub pat cs

/-- Python substring test `pat in text`. -/
def strIn (pat text : String) : Bool := hasSub pat.data text.data

/-- Python slicing `s[:n]`. -/
def pyTake (n : Nat) (s : String) : String := String.mk (s.data.take n)

/-- Python whitespace class `\s` over ASCII. -/
def isPySpace (c : Char) : Bool :=
  c == ' ' || c == '\t' || c == '\n' || c == '\r' ||
  c == Char.ofNat 11 || c == Char.ofNat 12

/-- Python `s.strip()`. -/
def pyStrip (s : String) : String :=
  String.mk (((s.data.dropWhile isPySpace).reverse.dropWhile isPySpace).reverse)

/-- Accumulator pass for `pyWords`: `cur` holds the reversed current
word. -/
def wordsAux (cur : List Char) : List Char → List String
  | [] => if cur.isEmpty then [] else [String.mk cur.reverse]
  | c :: cs =>
    if isPySpace c then
      if cur.isEmpty then wordsAux [] cs
      else String.mk cur.reverse :: wordsAux [] cs
    else wordsAux (c :: cur) cs

/-- Python `s.split()` (split on whitespace runs, dropping empty pieces). -/
def pyWords (s : String) : List String := wordsAux [] s.data

/-! ### Lemmas on the string primitives -/

theorem matchesAt_map (f : Char → Char) (pat s : List Char)
    (h : matchesAt pat s = true) : matchesAt (pat.map f) (s.map f) = true := by
  induction pat generalizing s with
  | nil => simp [matchesAt]
  | cons p ps ih =>
    cases s with
    | nil => simp [matchesAt] at h
    | cons c cs =>
      simp only [matchesAt, Bool.and_eq_true, beq_iff_eq] at h ⊢
      exact ⟨by rw [h.1], ih cs h.2⟩

theorem hasSub_map (f : Char → Char) (pat l : List Char)
    (h : hasSub pat l = true) : hasSub (pat.map f) (l.map f) = true := by
  induction l with
  | nil =>
    simp only [hasSub, List.isEmpty_iff] at h
    simp [hasSub, h]
  | cons c cs ih =>
    simp only [hasSub, Bool.or_eq_true] at h ⊢
    cases h with
    | inl h => exact Or.inl (matchesAt_map f pat (c :: cs) h)
    | inr h => exact Or.inr (ih h)

/-- A pattern fixed by lower-casing (all keywords in the tables are) that
occurs in the raw text also occurs in the lower-cased text. -/
theorem strIn_pyLower_of_strIn (k text : String) (hfix : pyLower k = k)
    (h : strIn k text = true) : strIn k (pyLower text) = true := by
  have hk : k.data.map lowerChar = k.data := by
    have := congrArg String.data hfix
    simpa [pyLower] using this
  have := hasSub_map lowerChar k.data text.data h
  rw [hk] at this
  simpa [strIn, pyLower] using this

/-! ## Configuration tables (`src/config.py`) -/

/-- `SAUDI_REGIONS` from `config.py`. -/
def SAUDI_REGIONS : List String :=
  ["Riyadh", "Makkah", "Madinah", "Eastern Province", "Asir", "Tabuk",
   "Qassim", "Ha'il", "Northern Borders", "Jazan", "Najran", "Al-Bahah",
   "Al-Jawf"]

/-- `PROJECT_STATUS_OPTIONS` from `config.py`. -/
def PROJECT_STATUS_OPTIONS : List String :=
  ["Active", "Ongoing", "Under Construction", "Planning", "Announced"]

/-- `ACTIVE_KEYWORDS` from `config.py`. -/
def ACTIVE_KEYWORDS : List String :=
  ["active", "ongoing", "under construction", "in progress",
   "construction started", "construction began", "work began", "work begins",
   "started", "starts", "groundbreaking", "site work", "mobilization",
   "awarded", "contract awarded", "contract signed", "commencement",
   "commence", "commenced",
   "نشط", "قيد الإنشاء", "قيد الانشاء", "تحت الإنشاء", "تحت الانشاء",
   "قيد التنفيذ", "تحت التنفيذ", "جاري التنفيذ", "بدء التنفيذ", "بدأ التنفيذ",
   "بدء الأعمال", "بدأت الأعمال", "ترسية", "ترسية العقد", "تمت الترسية",
   "توقيع عقد", "وضع حجر الأساس"]

/-- `COMPLETED_KEYWORDS` from `config.py`. -/
def COMPLETED_KEYWORDS : List String :=
  ["completed", "finished", "delivered", "inaugurated", "مكتمل", "منجز"]

/-- `CANCELLED_KEYWORDS` from `config.py`. -/
def CANCELLED_KEYWORDS : List String :=
  ["cancelled", "suspended", "halted", "stopped", "ملغي", "متوقف"]

/-- `SOURCE_RELIABILITY` from `config.py`, in dict insertion order. -/
def SOURCE_RELIABILITY : List (String × ℚ) :=
  [("spa.gov.sa", 1), ("vision2030.gov.sa", 1), ("neom.com", 1),
   ("qiddiya.com", 1), ("redseaglobal.com", 1), ("diriyah.sa", 1),
   ("roshn.sa", 1), ("meed.com", 9/10), ("zawya.com", 9/10),
   ("constructionweekonline.com", 9/10), ("arabianbusiness.com", 85/100),
   ("saudigazette.com.sa", 85/100), ("thenationalnews.com", 85/100),
   ("arabnews.com", 85/100), ("aleqt.com", 85/100), ("sabq.org", 8/10),
   ("okaz.com.sa", 8/10), ("aawsat.com", 8/10), ("almadinah.com", 8/10),
   ("makkahnewspaper.com", 8/10), ("default", 1/2)]

/-- `get_source_reliability` from `config.py`: first table entry whose
domain occurs in the lower-cased URL, else the documented default 0.5. -/
def get_source_reliability (url : String) : ℚ :=
  match SOURCE_RELIABILITY.find? (fun p => strIn p.1 (pyLower url)) with
  | some p => p.2
  | none => 1/2

/-- `CONFIDENCE_WEIGHTS` from `config.py`. -/
def CONFIDENCE_WEIGHTS : List (String × ℚ) :=
  [("source_count", 3/10), ("data_completeness", 3/10),
   ("source_reliability", 1/5), ("recency", 1/5)]

/-- Weight lookup in `CONFIDENCE_WEIGHTS` (every key used is present). -/
def weightOf (k : String) : ℚ :=
  match CONFIDENCE_WEIGHTS.find? (fun p => p.1 == k) with
  | some p => p.2
  | none => 0

/-- `CONFIDENCE_THRESHOLD` default from `config.py`. -/
def CONFIDENCE_THRESHOLD : ℚ := 7/10

/-! ## Rule-based extractor keyword lists (`nlp_engine._extract_with_rules`) -/

def completed_keywords_en : List String :=
  ["completed", "finished", "delivered", "inaugurated", "opened",
   "commissioned", "handover", "handed over", "has been delivered",
   "was completed", "was opened"]

def completed_keywords_ar : List String :=
  ["تم الانتهاء", "اكتمل", "افتتح", "تم افتتاح", "تم تدشين", "تسليم",
   "تم التسليم", "انتهى", "اكتملت", "تم الإنجاز"]

def cancelled_keywords_en : List String :=
  ["cancelled", "canceled", "suspended", "halted", "stopped", "postponed"]

def cancelled_keywords_ar : List String :=
  ["ألغي", "توقف", "تعليق", "إيقاف"]

def active_indicators_en : List String :=
  ["under construction", "construction began", "construction started",
   "awarded", "contract awarded", "contract signed", "starts construction",
   "groundbreaking", "commencement", "commence", "commenced", "ongoing",
   "in progress", "being built"]

def active_indicators_ar : List String :=
  ["تحت التنفيذ", "قيد التنفيذ", "بدء التنفيذ", "بدأ التنفيذ", "بدأ البناء",
   "جاري التنفيذ", "ترسية", "ترسية العقد", "تمت الترسية", "توقيع عقد",
   "وضع حجر الأساس"]

/-- The full completed scan list of STEP 1 of `_extract_with_rules`. -/
def completedScanList : List String :=
  completed_keywords_en ++ completed_keywords_ar ++ COMPLETED_KEYWORDS

/-- The full cancelled scan list of STEP 2 of `_extract_with_rules`. -/
def cancelledScanList : List String :=
  cancelled_keywords_en ++ cancelled_keywords_ar ++ CANCELLED_KEYWORDS

/-- The full active-indicator list of STEP 3 of `_extract_with_rules`. -/
def activeIndicatorList : List String :=
  active_indicators_en ++ active_indicators_ar ++ ACTIVE_KEYWORDS

/-! ## Status classifier marker lists (`nlp_engine._classify_status`) -/

def statusCompletedAr : List String :=
  ["تم الانتهاء", "اكتمل", "افتتح", "تم افتتاح", "تم التسليم", "مكتمل", "منجز"]

def statusCancelledAr : List String :=
  ["ألغي", "الغاء", "توقف", "متوقف", "معلق", "تم إيقاف"]

def under_construction_markers : List String :=
  ["under construction", "construction started", "construction began",
   "groundbreaking"]

def ongoing_markers : List String :=
  ["ongoing", "in progress", "progress", "phase"]

def under_construction_markers_ar : List String :=
  ["قيد الإنشاء", "قيد الانشاء", "تحت الإنشاء", "تحت الانشاء",
   "وضع حجر الأساس", "بدأت الأعمال", "بدء الأعمال", "بدأ التنفيذ",
   "بدء التنفيذ"]

def statusOngoingAr : List String :=
  ["جاري", "قيد التنفيذ", "تحت التنفيذ", "جاري التنفيذ"]

/-- `_classify_status` from `nlp_engine.py`: completed/cancelled markers
first, then under-construction, ongoing, generic active keywords, default
`Announced`.  Latin markers are checked on the lower-cased copy, the Arabic
marker lists on the raw copy, exactly as in the source. -/
def classify_status (text : String) : String :=
  if COMPLETED_KEYWORDS.any (fun k => strIn k (pyLower text))
      || statusCompletedAr.any (fun k => strIn k text) then "Completed"
  else if CANCELLED_KEYWORDS.any (fun k => strIn k (pyLower text))
      || statusCancelledAr.any (fun k => strIn k text) then "Cancelled"
  else if under_construction_markers.any (fun m => strIn m (pyLower text))
      || under_construction_markers_ar.any (fun m => strIn m text) then
    "Under Construction"
  else if ongoing_markers.any (fun m => strIn m (pyLower text))
      || statusOngoingAr.any (fun m => strIn m text) then "Ongoing"
  else if ACTIVE_KEYWORDS.any
      (fun k => strIn (pyLower k) (pyLower text) || strIn k text) then "Active"
  else "Announced"

/-! ## Specialised matcher for the extractor's regular expressions

All patterns used by `_extract_project_name` and `_extract_entity` share
the shape `LIT SEP+ ([F][^\n\r.]+(?:s1|s2|...))` (the literal/separator
part may be absent).  `re.search` semantics: leftmost start position, the
greedy `[^\n\r.]+` backtracks from longest to shortest, and at each length
the alternatives are tried in their written order.  Because the separator
class (`[:\s]` or `\s`) is disjoint from the first-character class of the
capture (`[A-Z]`, letters under IGNORECASE), the separator run never
backtracks into a successful capture, so it can be taken maximal. -/

/-- `[^\n\r.]` complement: a character on which the body class fails. -/
def isNameBreak (c : Char) : Bool := c == '\n' || c == '\r' || c == '.'

/-- `[A-Z]`. -/
def isUpperAZ (c : Char) : Bool := 'A' ≤ c && c ≤ 'Z'

/-- `[A-Z]` under `re.IGNORECASE` (ASCII letters). -/
def isAsciiLetter (c : Char) : Bool := isUpperAZ c || ('a' ≤ c && c ≤ 'z')

/-- `[:\s]`. -/
def isColonOrSpace (c : Char) : Bool := c == ':' || isPySpace c

/-- Case-insensitive-capable character comparison. -/
def eqCI (ci : Bool) (a b : Char) : Bool :=
  if ci then lowerChar a == lowerChar b else a == b

/-- Does `pat` match at the start of `s`, case-insensitively when `ci`? -/
def matchesAtCI (ci : Bool) : List Char → List Char → Bool
  | [], _ => true
  | _ :: _, [] => false
  | p :: ps, c :: cs => eqCI ci p c && matchesAtCI ci ps cs

/-- First alternative (in written order) matching at `tail`; returns its
length. -/
def trySuffixes (ci : Bool) (suffixes : List String) (tail : List Char) :
    Option Nat :=
  match suffixes with
  | [] => none
  | s :: ss =>
    if matchesAtCI ci s.data tail then some s.length
    else trySuffixes ci ss tail

/-- Greedy body search: try body length `ℓ` from the given bound down to 1;
for each, try the suffix alternatives in order.  Returns `(bodyLen,
suffixLen)`. -/
def tryBody (ci : Bool) (suffixes : List String) (rest : List Char) :
    Nat → Option (Nat × Nat)
  | 0 => none
  | n + 1 =>
    match trySuffixes ci suffixes (rest.drop (n + 1)) with
    | some m => some (n + 1, m)
    | none => tryBody ci suffixes rest n

/-- Match the capture group `([F][^\n\r.]+(?:s1|...))` at the start of the
input, returning the captured characters. -/
def captureAt (firstOk : Char → Bool) (suffixes : List String) (ci : Bool) :
    List Char → Option (List Char)
  | [] => none
  | c :: rest =>
    if firstOk c then
      let runLen := (rest.takeWhile (fun d => !isNameBreak d)).length
      match tryBody ci suffixes rest runLen with
      | some (bl, sl) => some (c :: rest.take (bl + sl))
      | none => none
    else none

/-- `re.search` leftmost-position loop for a positional matcher. -/
def searchFirst (m : List Char → Option (List Char)) :
    List Char → Option (List Char)
  | [] => none
  | c :: cs =>
    match m (c :: cs) with
    | some r => some r
    | none => searchFirst m cs

/-- Positional matcher for `LIT SEP+ (capture)`: the literal, then a
maximal non-empty separator run, then the capture group. -/
def litSepCapture (lit : String) (sep : Char → Bool) (firstOk : Char → Bool)
    (suffixes : List String) (ci : Bool) (cs : List Char) :
    Option (List Char) :=
  if matchesAtCI ci lit.data cs then
    let rest := cs.drop lit.length
    let k := (rest.takeWhile sep).length
    if k == 0 then none
    else captureAt firstOk suffixes ci (rest.drop k)
  else none

/-! ## Field extraction (`nlp_engine.py`) -/

def nameSuffixesLower : List String := ["project", "Project"]

def nameSuffixesNoun : List String :=
  ["Development", "Complex", "Tower", "Center", "City", "Park"]

def entitySuffixes : List String :=
  ["Company", "Corp", "Ltd", "Group", "Contracting"]

/-- `re.search(r"project[:\s]+([A-Z][^\n\r\.]+(?:project|Project))", text)`. -/
def searchNamePattern1 (cs : List Char) : Option (List Char) :=
  searchFirst (litSepCapture "project" isColonOrSpace isUpperAZ
    nameSuffixesLower false) cs

/-- `re.search(r"([A-Z][^\n\r\.]+(?:Development|Complex|Tower|Center|City|Park))", text)`. -/
def searchNamePattern2 (cs : List Char) : Option (List Char) :=
  searchFirst (captureAt isUpperAZ nameSuffixesNoun false) cs

/-- `re.search(r"the\s+([A-Z][^\n\r\.]+(?:project|Project))", text)`. -/
def searchNamePattern3 (cs : List Char) : Option (List Char) :=
  searchFirst (litSepCapture "the" isPySpace isUpperAZ
    nameSuffixesLower false) cs

/-- Accept a pattern hit as a name when `10 < len < 200` after `strip`. -/
def acceptName (r : Option (List Char)) : Option String :=
  match r with
  | some cs =>
    let name := pyStrip (String.mk cs)
    if 10 < name.length ∧ name.length < 200 then some name else none
  | none => none

/-- `_extract_project_name`: the three ordered patterns, falling back to
the first sentence truncated to 100 characters.  (Python's
`text.split('.')` is never empty, so the `"Unknown Project"` branch of the
source is unreachable.) -/
def extract_project_name (text : String) : String :=
  match acceptName (searchNamePattern1 text.data) with
  | some n => n
  | none =>
    match acceptName (searchNamePattern2 text.data) with
    | some n => n
    | none =>
      match acceptName (searchNamePattern3 text.data) with
      | some n => n
      | none =>
        pyStrip (String.mk ((text.data.takeWhile (fun c => c != '.')).take 100))

/-- `_extract_region`: first gazetteer region occurring (lower-cased) in
the lower-cased text. -/
def extract_region (text : String) : Option String :=
  SAUDI_REGIONS.find? (fun r => strIn (pyLower r) (pyLower text))

/-- The fixed city list of `_extract_city`. -/
def cityList : List String :=
  ["Riyadh", "Jeddah", "Mecca", "Medina", "Dammam", "Khobar", "Dhahran",
   "Jubail", "Yanbu", "Tabuk", "Abha", "Khamis Mushait", "Najran", "Jazan",
   "Hail", "Buraydah", "Al Khobar", "Qatif", "Al Ahsa"]

/-- `_extract_city`. -/
def extract_city (text : String) : Option String :=
  cityList.find? (fun c => strIn (pyLower c) (pyLower text))

/-- The category keyword table of `_classify_category`, in dict insertion
order. -/
def categoryKeywords : List (String × List String) :=
  [("Residential", ["residential", "housing", "apartment", "villa", "homes"]),
   ("Commercial", ["commercial", "retail", "mall", "shopping", "office"]),
   ("Infrastructure", ["infrastructure", "road", "bridge", "highway",
     "railway", "metro"]),
   ("Industrial", ["industrial", "factory", "plant", "manufacturing"]),
   ("Mega Project", ["mega", "giga", "neom", "red sea", "qiddiya"]),
   ("Healthcare", ["hospital", "medical", "healthcare", "clinic"]),
   ("Education", ["school", "university", "education", "campus"]),
   ("Transportation", ["airport", "port", "station", "transport"]),
   ("Energy", ["energy", "power", "solar", "wind", "oil", "gas"]),
   ("Tourism", ["hotel", "resort", "tourism", "entertainment"])]

/-- `_classify_category`: first category with a keyword hit, default
`Commercial`. -/
def classify_category (text : String) : String :=
  let text_lower := pyLower text
  match categoryKeywords.find?
      (fun p => p.2.any (fun k => strIn k text_lower)) with
  | some p => p.1
  | none => "Commercial"

/-- Accept an entity hit when `5 < len < 150` after `strip`. -/
def acceptEntity (r : Option (List Char)) : Option String :=
  match r with
  | some cs =>
    let e := pyStrip (String.mk cs)
    if 5 < e.length ∧ e.length < 150 then some e else none
  | none => none

/-- The two IGNORECASE patterns of `_extract_entity` for one entity type. -/
def extractEntityType (cs : List Char) (etype : String) : Option String :=
  match acceptEntity (searchFirst (litSepCapture etype isColonOrSpace
      isAsciiLetter entitySuffixes true) cs) with
  | some e => some e
  | none =>
    acceptEntity (searchFirst (litSepCapture "by" isPySpace
      isAsciiLetter entitySuffixes true) cs)

/-- `_extract_entity`: each entity type in order, two patterns each. -/
def extract_entity (text : String) : List String → Option String
  | [] => none
  | t :: ts =>
    match extractEntityType text.data t with
    | some e => some e
    | none => extract_entity text ts

/-! ## The rule-based extractor (`_extract_with_rules`) -/

/-- The rejection outcomes of `_extract_with_rules` (in the source each is
a logged reason followed by `return None`). -/
inductive RejectReason
  | completed
  | cancelled
  | noActiveIndicator
  | nameTooShort
  | noRegion
  deriving DecidableEq

/-- The `project_info` dict built by `_extract_with_rules` (plus the
`start_date`/`project_value` keys, which the rule path never sets and
whose `dict.get` therefore yields `None`). -/
structure ProjectInfo where
  project_name : String
  status : String
  region : Option String
  city : Option String
  category : String
  project_owner : Option String
  main_contractor : Option String
  consultant : Option String
  description : String
  source_url : String
  extracted_by : String
  start_date : Option String := none
  project_value : Option String := none
  deriving DecidableEq

/-- The `project_info` dict assembled in STEP 4 of `_extract_with_rules`. -/
def rulesProjectInfo (text url : String) : ProjectInfo :=
  { project_name := extract_project_name text
    status := classify_status text
    region := extract_region text
    city := extract_city text
    category := classify_category text
    project_owner := extract_entity text ["owner", "client", "developer"]
    main_contractor := extract_entity text ["contractor", "builder"]
    consultant := extract_entity text ["consultant", "designer", "architect"]
    description := pyStrip (pyTake 350 text)
    source_url := url
    extracted_by := "rules" }

/-- `_extract_with_rules`: hard rejection scans, active-indicator gate,
field extraction, minimum-viability checks, in the source's strict order. -/
def extract_with_rules (text url : String) : Except RejectReason ProjectInfo :=
  if completedScanList.any (fun k => strIn k (pyLower text)) then
    .error .completed
  else if cancelledScanList.any (fun k => strIn k (pyLower text)) then
    .error .cancelled
  else if !(activeIndicatorList.any (fun k => strIn k (pyLower text))) then
    .error .noActiveIndicator
  else if (rulesProjectInfo text url).project_name.isEmpty
      || (rulesProjectInfo text url).project_name.length < 10 then
    .error .nameTooShort
  else if (rulesProjectInfo text url).region.isNone then
    .error .noRegion
  else
    .ok (rulesProjectInfo text url)

/-- `extract_project_info` with no OpenAI client configured (the default:
`OPENAI_API_KEY` is empty), hence the rule-based path. -/
def extract_project_info (text url : String) : Except RejectReason ProjectInfo :=
  extract_with_rules text url

/-! ## Confidence scorer (`nlp_engine.calculate_confidence_score`) -/

/-- Python truthiness of an optional string field (`None` and `""` are
falsy). -/
def truthyOpt : Option String → Bool
  | none => false
  | some s => !s.isEmpty

/-- Python truthiness of a plain string field. -/
def truthyStr (s : String) : Bool := !s.isEmpty

/-- Round half to even, as Python's `round` on an exactly-representable
value. -/
def roundHalfEven (x : ℚ) : ℤ :=
  if x - ⌊x⌋ < 1/2 then ⌊x⌋
  else if 1/2 < x - ⌊x⌋ then ⌊x⌋ + 1
  else if ⌊x⌋ % 2 = 0 then ⌊x⌋ else ⌊x⌋ + 1

/-- Python `round(x, 2)`. -/
def roundTo2 (x : ℚ) : ℚ := (roundHalfEven (x * 100) : ℚ) / 100

/-- Number of filled required fields
(`project_name`, `status`, `region`, `category`). -/
def requiredFilled (p : ProjectInfo) : Nat :=
  ([truthyStr p.project_name, truthyStr p.status, truthyOpt p.region,
    truthyStr p.category].filter (fun b => b)).length

/-- Number of filled optional fields (`project_owner`, `main_contractor`,
`city`, `description`, `start_date`, `project_value`). -/
def optionalFilled (p : ProjectInfo) : Nat :=
  ([truthyOpt p.project_owner, truthyOpt p.main_contractor,
    truthyOpt p.city, truthyStr p.description, truthyOpt p.start_date,
    truthyOpt p.project_value].filter (fun b => b)).length

/-- `calculate_confidence_score`: weighted sum of the four signals in the
source's dict order, rounded to two decimal places. -/
def calculate_confidence_score (p : ProjectInfo) (source_count : Nat := 1) :
    ℚ :=
  roundTo2
    (min ((source_count : ℚ) / 5) 1 * weightOf "source_count"
     + (((requiredFilled p : ℚ) / 4) * (7/10)
        + ((optionalFilled p : ℚ) / 6) * (3/10)) * weightOf "data_completeness"
     + get_source_reliability p.source_url * weightOf "source_reliability"
     + (8/10) * weightOf "recency")

/-! ## Similarity and duplicate detection (`nlp_engine.py`) -/

/-- `_simple_similarity`: Jaccard index of the lower-cased word sets (the
fallback path of `calculate_similarity`; no embedding model is loaded). -/
def simple_similarity (t1 t2 : String) : ℚ :=
  let w1 := (pyWords (pyLower t1)).dedup
  let w2 := (pyWords (pyLower t2)).dedup
  if w1.isEmpty || w2.isEmpty then 0
  else
    let inter := w1.filter (fun w => w ∈ w2)
    let union := w1 ++ w2.filter (fun w => w ∉ w1)
    (inter.length : ℚ) / (union.length : ℚ)

/-! ## The persistent store (`db_manager.py` over the `models.py` schema) -/

/-- A row of the `projects` table (the columns the pipeline reads or
writes; timestamps are logical-clock ticks). -/
structure DBProject where
  id : Nat
  project_name : String
  project_name_ar : Option String := none
  status : String
  project_owner : Option String := none
  main_contractor : Option String := none
  consultant : Option String := none
  region : String
  city : Option String := none
  category : String
  description : Option String := none
  project_value : Option String := none
  start_date : Option String := none
  confidence_score : ℚ := 0
  data_completeness : ℚ := 0
  is_verified : Bool := false
  last_updated : Nat := 0
  update_count : Nat := 0
  deriving DecidableEq

/-- A row of the `sources` table. -/
structure DBSource where
  id : Nat
  project_id : Nat
  source_url : String
  source_type : String
  source_title : Option String := none
  reliability_score : ℚ := 1/2
  deriving DecidableEq

/-- The store state: both tables, the autoincrement counters (SQLite
autoincrement starts at 1) and a logical clock for `datetime.utcnow()`. -/
structure Store where
  projects : List DBProject := []
  sources : List DBSource := []
  nextProjectId : Nat := 1
  nextSourceId : Nat := 1
  now : Nat := 0
  deriving DecidableEq

/-- The update dict passed to `update_project`; `some v` models a present
key.  Only keys actually passed by the pipeline are modelled, and each is
a real column, so the source's `hasattr` guard is always true. -/
structure ProjUpdates where
  project_owner : Option String := none
  main_contractor : Option String := none
  consultant : Option String := none
  city : Option String := none
  description : Option String := none
  project_value : Option String := none
  start_date : Option String := none
  confidence_score : Option ℚ := none
  is_verified : Option Bool := none
  deriving DecidableEq

/-- Dict value for an optional-string column: a present key overwrites. -/
def updOpt (u : Option String) (old : Option String) : Option String :=
  match u with
  | some v => some v
  | none => old

/-- `setattr` loop of `update_project` followed by the unconditional
`last_updated` refresh and `update_count` increment. -/
def applyUpd (u : ProjUpdates) (p : DBProject) (t : Nat) : DBProject :=
  { p with
    project_owner := updOpt u.project_owner p.project_owner
    main_contractor := updOpt u.main_contractor p.main_contractor
    consultant := updOpt u.consultant p.consultant
    city := updOpt u.city p.city
    description := updOpt u.description p.description
    project_value := updOpt u.project_value p.project_value
    start_date := updOpt u.start_date p.start_date
    confidence_score := u.confidence_score.getD p.confidence_score
    is_verified := u.is_verified.getD p.is_verified
    last_updated := t
    update_count := p.update_count + 1 }

/-- `get_project_by_id`. -/
def get_project_by_id (s : Store) (pid : Nat) : Option DBProject :=
  s.projects.find? (fun p => p.id == pid)

/-- `update_project`: `False` and no change when the id is absent,
otherwise apply the updates, stamp `last_updated`, bump `update_count`. -/
def update_project (s : Store) (pid : Nat) (u : ProjUpdates) : Bool × Store :=
  match s.projects.find? (fun p => p.id == pid) with
  | none => (false, s)
  | some _ =>
    (true,
     { s with
       projects := s.projects.map
         (fun p => if p.id == pid then applyUpd u p s.now else p)
       now := s.now + 1 })

/-- The fields of a fresh `projects` row inserted by `add_project`
(columns not in the dict take their model defaults). -/
structure NewProjectData where
  project_name : String
  project_name_ar : Option String := none
  status : String
  project_owner : Option String := none
  main_contractor : Option String := none
  consultant : Option String := none
  region : String
  city : Option String := none
  category : String
  description : Option String := none
  project_value : Option String := none
  confidence_score : ℚ := 0
  data_completeness : ℚ := 0
  deriving DecidableEq

/-- `add_project`. -/
def add_project (s : Store) (d : NewProjectData) : Nat × Store :=
  let p : DBProject :=
    { id := s.nextProjectId
      project_name := d.project_name
      project_name_ar := d.project_name_ar
      status := d.status
      project_owner := d.project_owner
      main_contractor := d.main_contractor
      consultant := d.consultant
      region := d.region
      city := d.city
      category := d.category
      description := d.description
      project_value := d.project_value
      confidence_score := d.confidence_score
      data_completeness := d.data_completeness
      last_updated := s.now }
  (s.nextProjectId,
   { s with projects := s.projects ++ [p]
            nextProjectId := s.nextProjectId + 1
            now := s.now + 1 })

/-- The source dict passed to `add_source`. -/
structure SourceData where
  source_url : String
  source_type : String
  source_title : Option String := none
  reliability_score : ℚ := 1/2
  deriving DecidableEq

/-- `add_source`: unconditionally inserts a fresh row (there is no
duplicate-URL guard in the source). -/
def add_source (s : Store) (pid : Nat) (d : SourceData) : Nat × Store :=
  let src : DBSource :=
    { id := s.nextSourceId
      project_id := pid
      source_url := d.source_url
      source_type := d.source_type
      source_title := d.source_title
      reliability_score := d.reliability_score }
  (s.nextSourceId,
   { s with sources := s.sources ++ [src]
            nextSourceId := s.nextSourceId + 1 })

/-- `get_project_sources`. -/
def get_project_sources (s : Store) (pid : Nat) : List DBSource :=
  s.sources.filter (fun src => src.project_id == pid)

/-- `find_similar_projects`: the loose pre-filter — case-insensitive
substring match of the first 20 characters of the new name against stored
names. -/
def find_similar_projects (s : Store) (project_name : String) :
    List DBProject :=
  s.projects.filter
    (fun p => strIn (pyLower (pyTake 20 project_name)) (pyLower p.project_name))

/-- `is_duplicate` at the default threshold 0.85: name similarity strictly
above the threshold AND equal regions.  `project1` is the freshly
extracted dict (optional region), `project2` a stored row. -/
def is_duplicate (p1 : ProjectInfo) (p2 : DBProject) : Bool :=
  (if 85/100 < simple_similarity p1.project_name p2.project_name then
    p1.region == some p2.region
   else false)

/-! ## Pipeline (`data_processing/pipeline.py`) -/

/-- One scraped item, with the dict keys the pipeline reads (`none`
models an absent key). -/
structure RawItem where
  raw_text : Option String := none
  description : Option String := none
  text : Option String := none
  url : Option String := none
  source_type : Option String := none
  title : Option String := none
  source_name : Option String := none
  reliability_score : Option ℚ := none
  official_source : Bool := false
  deriving DecidableEq

/-- The run counters held on the `DataPipeline` object. -/
structure Counters where
  scraped : Nat := 0
  processed : Nat := 0
  added : Nat := 0
  updated : Nat := 0
  rejected : Nat := 0
  errors : Nat := 0
  deriving DecidableEq

/-- The augmented `project_data` dict travelling through the pipeline
(extraction output plus the keys the pipeline adds). -/
structure PData where
  info : ProjectInfo
  confidence_score : Option ℚ := none
  data_completeness : Option ℚ := none
  deriving DecidableEq

/-- Python `a or b` on two optional strings (`None` and `""` are falsy). -/
def pyOrStr (a b : Option String) : Option String :=
  match a with
  | some s => if s.isEmpty then b else some s
  | none => b

/-- The duplicate loop of `_process_item`: the first pre-filter candidate
accepted by `is_duplicate` decides the merge target. -/
def firstDuplicate (info : ProjectInfo) : List DBProject → Option Nat
  | [] => none
  | ex :: rest =>
    if is_duplicate info ex then some ex.id else firstDuplicate info rest

/-- `_update_existing_project`'s update dict: each of the seven checked
fields is taken from the new record only when it is falsy on the existing
row and truthy on the new one. -/
def fillField (ex new : Option String) : Option String :=
  if !truthyOpt ex && truthyOpt new then new else none

/-- The update dict built by `_update_existing_project`. -/
def mergeUpdates (ex : DBProject) (new : ProjectInfo) : ProjUpdates :=
  { project_owner := fillField ex.project_owner new.project_owner
    main_contractor := fillField ex.main_contractor new.main_contractor
    consultant := fillField ex.consultant new.consultant
    city := fillField ex.city new.city
    description := fillField ex.description (some new.description)
    project_value := fillField ex.project_value new.project_value
    start_date := fillField ex.start_date new.start_date }

/-- Python `if updates:` — is the update dict non-empty? -/
def updatesNonempty (u : ProjUpdates) : Bool :=
  u.project_owner.isSome || u.main_contractor.isSome || u.consultant.isSome
  || u.city.isSome || u.description.isSome || u.project_value.isSome
  || u.start_date.isSome

/-- `_update_existing_project`: fill empty fields from the new record;
only when at least one field is filled, write the update (bumping
`last_updated`/`update_count`) and append a source row (source type
defaults to `Website`, reliability hard-coded 0.5 at this call site). -/
def update_existing_project (s : Store) (pid : Nat) (new : ProjectInfo)
    (source_url : String) : Store :=
  match get_project_by_id s pid with
  | none => s
  | some existing =>
    if updatesNonempty (mergeUpdates existing new) then
      (add_source (update_project s pid (mergeUpdates existing new)).2 pid
        { source_url := source_url, source_type := "Website",
          reliability_score := 1/2 }).2
    else s

/-- The `db_project_data` dict built by `_add_new_project` once the
region is known to be non-null. -/
def dbProjectData (pd : PData) (region : String) : NewProjectData :=
  { project_name := pd.info.project_name
    project_name_ar := none
    status := pd.info.status
    project_owner := pd.info.project_owner
    main_contractor := pd.info.main_contractor
    consultant := pd.info.consultant
    region := region
    city := pd.info.city
    category := pd.info.category
    description := some pd.info.description
    project_value := pd.info.project_value
    confidence_score := pd.confidence_score.getD 0
    data_completeness := pd.data_completeness.getD 0 }

/-- `_add_new_project`: build the db dict and insert, then attach one
source row with the URL-lookup reliability.  A `None` region violates the
NOT NULL column constraint: the exception is caught and the function
returns `None` with nothing inserted. -/
def add_new_project (s : Store) (pd : PData) (source_url source_type : String) :
    Option Nat × Store :=
  match pd.info.region with
  | none => (none, s)
  | some region =>
    (some (add_project s (dbProjectData pd region)).1,
     (add_source (add_project s (dbProjectData pd region)).2
       (add_project s (dbProjectData pd region)).1
       { source_url := source_url, source_type := source_type,
         reliability_score := get_source_reliability source_url }).2)

/-- Python `max(l, default=0.5)`. -/
def maxRelDefault : List ℚ → ℚ
  | [] => 1/2
  | x :: xs => xs.foldl max x

/-- The `(confidence, verified)` band chosen by `_recompute_confidence`. -/
def confidence_band (sources : List DBSource) (official_source : Bool) :
    ℚ × Bool :=
  if official_source
      || decide ((99/100 : ℚ)
          ≤ maxRelDefault (sources.map (fun src => src.reliability_score))) then
    (92/100, true)
  else if 2 ≤ sources.length then (78/100, true)
  else (62/100, false)

/-- `_recompute_confidence`: the tiered band — official flag on the
triggering item or a stored source of reliability ≥ 0.99 gives 0.92 and
verified; else ≥ 2 sources give 0.78 and verified; else 0.62
unverified. -/
def recompute_confidence (s : Store) (pid : Nat) (official_source : Bool) :
    Store :=
  (update_project s pid
    { confidence_score :=
        some (confidence_band (get_project_sources s pid) official_source).1
      is_verified :=
        some (confidence_band (get_project_sources s pid) official_source).2 }).2

/-- `_calculate_completeness`: filled fields out of the fixed list of
ten, rounded to two decimals. -/
def calculate_completeness (p : ProjectInfo) : ℚ :=
  roundTo2
    (((([truthyStr p.project_name, truthyStr p.status, truthyOpt p.region,
         truthyStr p.category, truthyOpt p.project_owner,
         truthyOpt p.main_contractor, truthyOpt p.city,
         truthyStr p.description, truthyOpt p.start_date,
         truthyOpt p.project_value].filter (fun b => b)).length : ℚ)) / 10)

/-- `item.get('raw_text', item.get('description', ''))` of the batch step. -/
def rawTextOf (item : RawItem) : String :=
  item.raw_text.getD (item.description.getD "")

/-- `item.get('url', '')`. -/
def urlOf (item : RawItem) : String := item.url.getD ""

/-- `item.get('source_type', 'Website')`. -/
def stypeOf (item : RawItem) : String := item.source_type.getD "Website"

/-- `item.get('text', '')` of the streaming step. -/
def textOf (item : RawItem) : String := item.text.getD ""

/-- `float(item.get('reliability_score') or get_source_reliability(url))`:
a missing or falsy (0.0) dict value falls back to the URL lookup. -/
def reliabilityOf (item : RawItem) : ℚ :=
  match item.reliability_score with
  | some r => if r = 0 then get_source_reliability (urlOf item) else r
  | none => get_source_reliability (urlOf item)

/-- The `PData` assembled by the batch step before an insert attempt. -/
def batchPData (info : ProjectInfo) : PData :=
  { info := info
    confidence_score := some (calculate_confidence_score info 1)
    data_completeness := some (calculate_completeness info) }

/-- `_process_item`, the batch per-item step.  An item without text is
skipped with no counter touched; extraction rejection counts `rejected`;
a duplicate counts `updated`; otherwise the item is added only when the
confidence reaches the threshold (else `rejected`), and a failed or id-0
insert is not counted at all. -/
def process_item (cs : Counters × Store) (item : RawItem) :
    Counters × Store :=
  if (rawTextOf item).isEmpty then cs
  else
    match extract_project_info (rawTextOf item) (urlOf item) with
    | .error _ => ({ cs.1 with rejected := cs.1.rejected + 1 }, cs.2)
    | .ok info =>
      match firstDuplicate info (find_similar_projects cs.2 info.project_name) with
      | some pid =>
        ({ cs.1 with processed := cs.1.processed + 1,
                     updated := cs.1.updated + 1 },
         update_existing_project cs.2 pid info (urlOf item))
      | none =>
        if CONFIDENCE_THRESHOLD ≤ calculate_confidence_score info 1 then
          match add_new_project cs.2 (batchPData info) (urlOf item) (stypeOf item) with
          | (some pid, s1) =>
            if pid ≠ 0 then
              ({ cs.1 with processed := cs.1.processed + 1,
                           added := cs.1.added + 1 }, s1)
            else ({ cs.1 with processed := cs.1.processed + 1 }, s1)
          | (none, s1) => ({ cs.1 with processed := cs.1.processed + 1 }, s1)
        else
          ({ cs.1 with processed := cs.1.processed + 1,
                       rejected := cs.1.rejected + 1 }, cs.2)

/-- STEP fixing a falsy region to `"Unknown"` in the streaming path. -/
def fixRegion (i : ProjectInfo) : ProjectInfo :=
  if truthyOpt i.region then i else { i with region := some "Unknown" }

/-- STEP fixing a falsy category to `"Infrastructure"` in the streaming
path. -/
def fixCategory (i : ProjectInfo) : ProjectInfo :=
  if truthyStr i.category then i else { i with category := "Infrastructure" }

/-- `max(0.0, min(1.0, confidence*0.7 + reliability*0.3))` of the
streaming step (computed from the record before the region/category
fixes, as in the source). -/
def streamBaseConfidence (info : ProjectInfo) (item : RawItem) : ℚ :=
  max 0 (min 1 (calculate_confidence_score info 1 * (7/10)
                + reliabilityOf item * (3/10)))

/-- The source dict the streaming step passes to `add_source`. -/
def streamSrcData (item : RawItem) : SourceData :=
  { source_url := urlOf item
    source_type := stypeOf item
    source_title := pyOrStr item.title item.source_name
    reliability_score := reliabilityOf item }

/-- `_process_item_with_return`, the streaming per-item step (the yielded
event payload is not modelled; the counter and store effects are). -/
def streaming_step (cs : Counters × Store) (item : RawItem) :
    Counters × Store :=
  if (textOf item).isEmpty then
    ({ cs.1 with rejected := cs.1.rejected + 1 }, cs.2)
  else
    match extract_project_info (textOf item) (urlOf item) with
    | .error _ => ({ cs.1 with rejected := cs.1.rejected + 1 }, cs.2)
    | .ok info0 =>
      if pyStrip info0.status ∉
          (["Active", "Ongoing", "Under Construction"] : List String) then
        ({ cs.1 with rejected := cs.1.rejected + 1 }, cs.2)
      else
        match find_similar_projects cs.2 (fixCategory (fixRegion info0)).project_name with
        | ex :: _ =>
          ({ cs.1 with updated := cs.1.updated + 1 },
           recompute_confidence
             ((add_source
                (update_existing_project cs.2 ex.id (fixCategory (fixRegion info0))
                  (urlOf item))
                ex.id (streamSrcData item)).2)
             ex.id item.official_source)
        | [] =>
          match add_new_project cs.2
              { info := fixCategory (fixRegion info0)
                confidence_score := some (streamBaseConfidence info0 item) }
              (urlOf item) (stypeOf item) with
          | (some pid, s1) =>
            if pid ≠ 0 then
              ({ cs.1 with added := cs.1.added + 1 },
               recompute_confidence ((add_source s1 pid (streamSrcData item)).2)
                 pid item.official_source)
            else ({ cs.1 with processed := cs.1.processed + 1 }, s1)
          | (none, s1) => ({ cs.1 with processed := cs.1.processed + 1 }, s1)

/-- `run_full_pipeline` from a fresh `DataPipeline` over an already
scraped list of items: set `scraped`, fold the batch step. -/
def run_full_pipeline (s0 : Store) (items : List RawItem) :
    Counters × Store :=
  items.foldl process_item ({ scraped := items.length }, s0)

/-- `run_streaming_pipeline` over an already scraped list; the pair is
the aggregate counts carried by the final completion event, and the final
store. -/
def run_streaming_pipeline (s0 : Store) (items : List RawItem) :
    Counters × Store :=
  items.foldl streaming_step ({ scraped := items.length }, s0)

/-! ## Concrete inputs used by witnesses and counterexamples -/

/-- The spec's own rejection scenario text. -/
def metroText : String := "Riyadh Metro project has been completed and inaugurated."

/-- A text accepted by the rule-based extractor: name `King Salman Park`
(second regex pattern), status `Active` (via `awarded`), region `Riyadh`. -/
def parkText : String := "King Salman Park in Riyadh was awarded to a builder"

/-- `parkText` with the Arabic marker `معلق` (suspended) appended: the
marker is in the status classifier's cancelled list but in none of the
rejection-scan lists. -/
def parkCancelText : String :=
  "King Salman Park in Riyadh was awarded to a builder معلق"

def parkUrl : String := "https://example.com/a"

/-- A streaming item carrying `parkText`. -/
def parkItem : RawItem :=
  { text := some parkText, url := some parkUrl, source_type := some "News" }

/-- A batch item carrying `parkText` (the batch step reads `raw_text`). -/
def parkItemBatch : RawItem :=
  { raw_text := some parkText, url := some parkUrl, source_type := some "News" }

/-- A stored project sharing the first 20 characters of the extracted
name `King Salman Park` but with Jaccard similarity 3/8 and a different
region. -/
def farStored : DBProject :=
  { id := 7
    project_name := "King Salman Park residential towers alpha beta gamma"
    status := "Active", region := "Makkah", category := "Commercial" }

def farStore : Store := { projects := [farStored], nextProjectId := 8 }

/-- A stored project that IS a genuine duplicate of the record extracted
from `parkText` (same name, same region). -/
def sameStored : DBProject :=
  { id := 4, project_name := "King Salman Park", status := "Active",
    region := "Riyadh", category := "Commercial" }

def sameStore : Store := { projects := [sameStored], nextProjectId := 5 }

/-- A fully populated stored row: every field checked by
`_update_existing_project` is truthy. -/
def fullStored : DBProject :=
  { id := 3, project_name := "Qiddiya Water Park", status := "Active",
    region := "Riyadh", category := "Tourism",
    project_owner := some "Qiddiya Investment Company"
    main_contractor := some "Alpha Contracting"
    consultant := some "Beta Design Company"
    city := some "Riyadh", description := some "Large water park"
    project_value := some "1 billion SAR", start_date := some "2024-01-01" }

def fullStore : Store := { projects := [fullStored], nextProjectId := 4, now := 9 }

/-- A new extracted record corroborating `fullStored`: plenty of data,
none of which may overwrite the populated row. -/
def corrNew : ProjectInfo :=
  { project_name := "Qiddiya Water Park", status := "Active",
    region := some "Riyadh", city := some "Riyadh", category := "Tourism",
    project_owner := some "Someone Else Group"
    main_contractor := some "Other Builder Ltd"
    consultant := some "Gamma Architects Company"
    description := "Fresh corroborating text", source_url := "u",
    extracted_by := "rules" }

/-- The record the rule-based extractor produces on `parkText`. -/
def parkInfo : ProjectInfo :=
  { project_name := "King Salman Park", status := "Active",
    region := some "Riyadh", city := some "Riyadh", category := "Commercial",
    project_owner := none, main_contractor := none, consultant := none,
    description := parkText, source_url := parkUrl, extracted_by := "rules" }

/-- A stored row with empty stakeholder fields, to be augmented by a
merge. -/
def gapStored : DBProject :=
  { id := 9, project_name := "Diriyah Gate Development", status := "Active",
    region := "Riyadh", category := "Tourism" }

def gapStore : Store := { projects := [gapStored], nextProjectId := 10, now := 5 }

def demoProj : DBProject :=
  { id := 1, project_name := "Demo Towers", status := "Active",
    region := "Riyadh", category := "Commercial" }

def demoStore : Store := { projects := [demoProj], nextProjectId := 2 }

def bandProj : DBProject :=
  { id := 1, project_name := "Demo Towers Development", status := "Active",
    region := "Riyadh", category := "Commercial" }

def bandSrc : DBSource :=
  { id := 1, project_id := 1, source_url := "https://example.com/a",
    source_type := "News", reliability_score := 1/2 }

/-- A one-project one-source store for the confidence-band witness. -/
def bandStore : Store :=
  { projects := [bandProj], sources := [bandSrc],
    nextProjectId := 2, nextSourceId := 2 }

/-! # Theorems -/

/-! ## Shared helper facts -/

/-- Every keyword scanned by STEP 1 of `_extract_with_rules` is a fixed
point of lower-casing (lower-case ASCII or Arabic). -/
theorem completedScanList_lower_fixed :
    ∀ k ∈ completedScanList, pyLower k = k := by decide

/-- A text containing a step-1 keyword (raw or lower-cased containment)
contains it in the lower-cased copy the scan inspects. -/
theorem completedScan_hit (text k : String) (hk : k ∈ completedScanList)
    (hin : strIn k (pyLower text) = true ∨ strIn k text = true) :
    strIn k (pyLower text) = true := by
  cases hin with
  | inl h => exact h
  | inr h => exact strIn_pyLower_of_strIn k text (completedScanList_lower_fixed k hk) h

/-- **C1.** Any input text containing a completed-keyword (an English
keyword matched case-insensitively, i.e. found in the lower-cased copy,
or an Arabic keyword matched as-is in the raw text) is rejected by the
rule-based extractor with reason `completed`, regardless of the rest of
the text — in particular regardless of any active-indicator keyword — and
before any later step runs. -/
theorem c1_completed_keyword_rejects (text url k : String)
    (hk : k ∈ completedScanList)
    (hin : strIn k (pyLower text) = true ∨ strIn k text = true) :
    extract_with_rules text url = .error .completed := by
  have hlow : strIn k (pyLower text) = true := completedScan_hit text k hk hin
  have hguard : completedScanList.any (fun x => strIn x (pyLower text)) = true :=
    List.any_eq_true.mpr ⟨k, hk, hlow⟩
  unfold extract_with_rules
  simp [hguard]

/-- Witness for C1 on the spec's own scenario text. -/
theorem c1_completed_keyword_rejects_witness :
    ("completed" ∈ completedScanList ∧ strIn "completed" metroText = true)
    ∧ extract_with_rules metroText "" = .error .completed :=
  ⟨⟨by decide, by decide⟩,
   c1_completed_keyword_rejects metroText "" "completed" (by decide)
     (Or.inr (by decide))⟩

/-! ## C2: invariants of accepted records -/

/-- Shape of a successful extraction: the guards that were passed and the
record that was built. -/
theorem extract_with_rules_ok (text url : String) (info : ProjectInfo)
    (h : extract_with_rules text url = .ok info) :
    completedScanList.any (fun k => strIn k (pyLower text)) = false
    ∧ info.project_name = extract_project_name text
    ∧ info.status = classify_status text
    ∧ info.region = extract_region text
    ∧ (info.project_name.isEmpty || decide (info.project_name.length < 10)) = false
    ∧ info.region.isNone = false := by
  unfold extract_with_rules at h
  split at h
  · exact Except.noConfusion h
  · split at h
    · exact Except.noConfusion h
    · split at h
      · exact Except.noConfusion h
      · split at h
        · exact Except.noConfusion h
        · split at h
          · exact Except.noConfusion h
          · rename_i hcomp hcanc hact hname hreg
            injection h with h
            subst h
            refine ⟨?_, rfl, rfl, rfl, ?_, ?_⟩
            · exact Bool.eq_false_iff.mpr hcomp
            · simpa using hname
            · exact Bool.eq_false_iff.mpr hreg

/-- The status classifier never returns `Completed` on a text that passed
the step-1 completed scan (its lower-cased markers are all scanned in
step 1, and its raw-text Arabic markers are lower-casing fixed points also
scanned in step 1), so on such texts it returns one of the five statuses
`Active`, `Ongoing`, `Under Construction`, `Announced`, `Cancelled`. -/
theorem classify_status_mem (text : String)
    (hpass : completedScanList.any (fun k => strIn k (pyLower text)) = false) :
    classify_status text ∈
      (["Active", "Ongoing", "Under Construction", "Announced", "Cancelled"] :
        List String) := by
  have hscan : ∀ k ∈ completedScanList, strIn k (pyLower text) = false := by
    intro k hk
    have := (List.any_eq_false).mp hpass k hk
    simpa using this
  have hA : COMPLETED_KEYWORDS.any (fun k => strIn k (pyLower text)) = false := by
    rw [List.any_eq_false]
    intro k hk
    have hmem : k ∈ completedScanList := by
      have hsub : ∀ x ∈ COMPLETED_KEYWORDS, x ∈ completedScanList := by decide
      exact hsub k hk
    simp [hscan k hmem]
  have hB : statusCompletedAr.any (fun k => strIn k text) = false := by
    rw [List.any_eq_false]
    intro k hk
    have hfix : pyLower k = k := by
      have : ∀ x ∈ statusCompletedAr, pyLower x = x := by decide
      exact this k hk
    have hmem : k ∈ completedScanList := by
      have : ∀ x ∈ statusCompletedAr, x ∈ completedScanList := by decide
      exact this k hk
    intro hraw
    have := strIn_pyLower_of_strIn k text hfix hraw
    rw [hscan k hmem] at this
    exact Bool.false_ne_true this
  unfold classify_status
  rw [hA, hB]
  rw [if_neg (by simp)]
  split
  · decide
  · split
    · decide
    · split
      · decide
      · split
        · decide
        · decide

/-- **C2, counterexample.** The claim says accepted records always carry a
status in the non-terminal set; but on `parkCancelText` — whose Arabic
marker `معلق` is in the classifier's cancelled list yet absent from the
step-2 rejection scan — the extractor accepts a record whose status is
`Cancelled`, which is not in `PROJECT_STATUS_OPTIONS`. -/
theorem c2_counterexample :
    (extract_with_rules parkCancelText "").map ProjectInfo.status
      = .ok "Cancelled"
    ∧ "Cancelled" ∉ PROJECT_STATUS_OPTIONS := by
  constructor
  · rfl
  · decide

/-- **C2, amended.** Every record accepted by the rule-based extractor has
a project name of at least 10 characters (hence non-empty), a region from
the fixed 13-region gazetteer, and a status among `Active`, `Ongoing`,
`Under Construction`, `Announced`, `Cancelled`: `Completed` is never
returned on an accepted record, but `Cancelled` can be (the Arabic
cancelled markers `معلق` and `الغاء` are checked by the status classifier
but missing from the step-2 rejection scan). -/
theorem c2_accepted_record_invariants (text url : String) (info : ProjectInfo)
    (h : extract_with_rules text url = .ok info) :
    10 ≤ info.project_name.length
    ∧ info.project_name ≠ ""
    ∧ (∃ r ∈ SAUDI_REGIONS, info.region = some r)
    ∧ info.status ∈
        (["Active", "Ongoing", "Under Construction", "Announced", "Cancelled"] :
          List String) := by
  obtain ⟨hpass, _, hstatus, hregion, hname, hreg⟩ :=
    extract_with_rules_ok text url info h
  rw [Bool.or_eq_false_iff] at hname
  obtain ⟨hne, hlen⟩ := hname
  refine ⟨?_, ?_, ?_, ?_⟩
  · have : ¬ info.project_name.length < 10 := by simpa using hlen
    omega
  · intro heq
    rw [heq] at hne
    exact absurd hne (by decide)
  · cases hr : info.region with
    | none => rw [hr] at hreg; simp at hreg
    | some r =>
      refine ⟨r, ?_, rfl⟩
      rw [hr] at hregion
      exact List.mem_of_find?_eq_some hregion.symm
  · rw [hstatus]
    exact classify_status_mem text hpass

/-- Witness for the amended C2 on the accepted `parkText` record. -/
theorem c2_accepted_record_invariants_witness :
    ∃ info, extract_with_rules parkText parkUrl = .ok info
      ∧ (10 ≤ info.project_name.length
         ∧ info.project_name ≠ ""
         ∧ (∃ r ∈ SAUDI_REGIONS, info.region = some r)
         ∧ info.status ∈
             (["Active", "Ongoing", "Under Construction", "Announced",
               "Cancelled"] : List String)) :=
  ⟨(extract_with_rules parkText parkUrl).toOption.getD
      { project_name := "", status := "", region := none, city := none,
        category := "", project_owner := none, main_contractor := none,
        consultant := none, description := "", source_url := "",
        extracted_by := "" },
   by rfl,
   c2_accepted_record_invariants parkText parkUrl _ (by rfl)⟩

/-! ## C9: the base confidence formula -/

/-- The URL reliability lookup always yields a table value in `[1/2, 1]`
(or the default `1/2`). -/
theorem get_source_reliability_bounds (url : String) :
    1/2 ≤ get_source_reliability url ∧ get_source_reliability url ≤ 1 := by
  unfold get_source_reliability
  cases hfind : SOURCE_RELIABILITY.find? (fun p => strIn p.1 (pyLower url)) with
  | none => norm_num
  | some p =>
    have hmem : p ∈ SOURCE_RELIABILITY := List.mem_of_find?_eq_some hfind
    have hall : ∀ q ∈ SOURCE_RELIABILITY, 1/2 ≤ q.2 ∧ q.2 ≤ 1 := by
      intro q hq
      fin_cases hq <;> norm_num
    exact hall p hmem

theorem roundHalfEven_bounds (y : ℚ) (h0 : 0 ≤ y) (h1 : y ≤ 100) :
    0 ≤ roundHalfEven y ∧ roundHalfEven y ≤ 100 := by
  have hf0 : (0 : ℤ) ≤ ⌊y⌋ := Int.le_floor.mpr (by exact_mod_cast h0)
  have hfle : (⌊y⌋ : ℚ) ≤ y := Int.floor_le y
  have hf100 : ⌊y⌋ ≤ 100 := by
    have hq : (⌊y⌋ : ℚ) ≤ 100 := le_trans hfle h1
    exact_mod_cast hq
  have hplus : 1/2 ≤ y - ⌊y⌋ → ⌊y⌋ + 1 ≤ 100 := by
    intro hr
    have hq : (⌊y⌋ : ℚ) ≤ 199/2 := by linarith
    have h99 : ⌊y⌋ ≤ ⌊(199/2 : ℚ)⌋ := Int.le_floor.mpr hq
    have : ⌊(199/2 : ℚ)⌋ = 99 := by
      rw [Int.floor_eq_iff]
      norm_num
    omega
  unfold roundHalfEven
  split
  · exact ⟨hf0, hf100⟩
  · rename_i hlt
    split
    · rename_i hgt
      refine ⟨by omega, hplus (by linarith [not_lt.mp hlt])⟩
    · split
      · exact ⟨hf0, hf100⟩
      · refine ⟨by omega, hplus (by linarith [not_lt.mp hlt])⟩

theorem roundTo2_mem_unit (x : ℚ) (h0 : 0 ≤ x) (h1 : x ≤ 1) :
    0 ≤ roundTo2 x ∧ roundTo2 x ≤ 1 := by
  obtain ⟨hl, hr⟩ := roundHalfEven_bounds (x * 100) (by linarith) (by linarith)
  have hlq : (0 : ℚ) ≤ (roundHalfEven (x * 100) : ℚ) := by exact_mod_cast hl
  have hrq : (roundHalfEven (x * 100) : ℚ) ≤ 100 := by exact_mod_cast hr
  unfold roundTo2
  constructor
  · positivity
  · rw [div_le_one (by norm_num)]
    exact hrq

theorem requiredFilled_le (p : ProjectInfo) : requiredFilled p ≤ 4 := by
  unfold requiredFilled
  exact le_trans (List.length_filter_le _ _) (by simp)

theorem optionalFilled_le (p : ProjectInfo) : optionalFilled p ≤ 6 := by
  unfold optionalFilled
  exact le_trans (List.length_filter_le _ _) (by simp)

/-- **C9.** For every record and source count, the base confidence score
is exactly the weighted sum
`0.3·min(sourceCount/5, 1) + 0.3·(0.7·required/4 + 0.3·optional/6) +
0.2·reliability(url) + 0.2·0.8` rounded to two decimal places, with the
required/optional field sets of the source; and it always lies in
`[0, 1]`. -/
theorem c9_confidence_score_formula (p : ProjectInfo) (source_count : Nat) :
    calculate_confidence_score p source_count
      = roundTo2 ((3/10) * min ((source_count : ℚ) / 5) 1
          + (3/10) * ((7/10) * ((requiredFilled p : ℚ) / 4)
              + (3/10) * ((optionalFilled p : ℚ) / 6))
          + (1/5) * get_source_reliability p.source_url
          + (1/5) * (8/10))
    ∧ 0 ≤ calculate_confidence_score p source_count
    ∧ calculate_confidence_score p source_count ≤ 1 := by
  have hw1 : weightOf "source_count" = 3/10 := by rfl
  have hw2 : weightOf "data_completeness" = 3/10 := by rfl
  have hw3 : weightOf "source_reliability" = 1/5 := by rfl
  have hw4 : weightOf "recency" = 1/5 := by rfl
  have heq : calculate_confidence_score p source_count
      = roundTo2 ((3/10) * min ((source_count : ℚ) / 5) 1
          + (3/10) * ((7/10) * ((requiredFilled p : ℚ) / 4)
              + (3/10) * ((optionalFilled p : ℚ) / 6))
          + (1/5) * get_source_reliability p.source_url
          + (1/5) * (8/10)) := by
    unfold calculate_confidence_score
    rw [hw1, hw2, hw3, hw4]
    congr 1
    ring
  refine ⟨heq, ?_⟩
  rw [heq]
  have hmin0 : 0 ≤ min ((source_count : ℚ) / 5) 1 :=
    le_min (by positivity) (by norm_num)
  have hmin1 : min ((source_count : ℚ) / 5) 1 ≤ 1 := min_le_right _ _
  have hreq : ((requiredFilled p : ℚ)) ≤ 4 := by
    exact_mod_cast requiredFilled_le p
  have hreq0 : (0 : ℚ) ≤ ((requiredFilled p : ℚ)) := by positivity
  have hopt : ((optionalFilled p : ℚ)) ≤ 6 := by
    exact_mod_cast optionalFilled_le p
  have hopt0 : (0 : ℚ) ≤ ((optionalFilled p : ℚ)) := by positivity
  obtain ⟨hrel0, hrel1⟩ := get_source_reliability_bounds p.source_url
  exact roundTo2_mem_unit _ (by linarith) (by linarith)

/-! ## Store operation helpers -/

theorem find?_map_of_pred {α : Type} (g : α → α) (pred : α → Bool)
    (l : List α) (hg : ∀ a, pred (g a) = pred a) :
    (l.map g).find? pred = (l.find? pred).map g := by
  induction l with
  | nil => rfl
  | cons hd tl ih =>
    by_cases h : pred hd = true
    · rw [List.map_cons, List.find?_cons_of_pos _ ((hg hd).trans h),
        List.find?_cons_of_pos _ h]
      rfl
    · rw [List.map_cons,
        List.find?_cons_of_neg _ (fun hc => h ((hg hd).symm.trans hc)),
        List.find?_cons_of_neg _ h]
      exact ih

theorem update_project_missing (s : Store) (pid : Nat) (u : ProjUpdates)
    (h : get_project_by_id s pid = none) :
    update_project s pid u = (false, s) := by
  unfold get_project_by_id at h
  unfold update_project
  rw [h]

theorem update_project_found (s : Store) (pid : Nat) (u : ProjUpdates)
    (ex : DBProject) (h : get_project_by_id s pid = some ex) :
    (update_project s pid u).1 = true
    ∧ (update_project s pid u).2.projects
        = s.projects.map (fun p => if p.id == pid then applyUpd u p s.now else p)
    ∧ (update_project s pid u).2.sources = s.sources
    ∧ (update_project s pid u).2.nextProjectId = s.nextProjectId
    ∧ (update_project s pid u).2.nextSourceId = s.nextSourceId
    ∧ (update_project s pid u).2.now = s.now + 1
    ∧ get_project_by_id (update_project s pid u).2 pid
        = some (applyUpd u ex s.now) := by
  unfold get_project_by_id at h
  have hpred : (ex.id == pid) = true := by
    have h2 := List.find?_some h
    simpa using h2
  unfold update_project
  rw [h]
  refine ⟨rfl, rfl, rfl, rfl, rfl, rfl, ?_⟩
  unfold get_project_by_id
  have hmap := find?_map_of_pred
    (fun p => if p.id == pid then applyUpd u p s.now else p)
    (fun p => p.id == pid) s.projects ?hg
  case hg =>
    intro a
    show ((if (a.id == pid) = true then applyUpd u a s.now else a).id == pid)
      = (a.id == pid)
    by_cases ha : (a.id == pid) = true
    · rw [if_pos ha]
      rfl
    · rw [if_neg ha]
  show (s.projects.map _).find? _ = _
  rw [hmap, h]
  show some (if (ex.id == pid) = true then applyUpd u ex s.now else ex)
    = some (applyUpd u ex s.now)
  rw [if_pos hpred]

/-- `add_source` leaves everything but the sources table and the source
autoincrement untouched. -/
theorem add_source_frame (s : Store) (pid : Nat) (d : SourceData) :
    (add_source s pid d).2.projects = s.projects
    ∧ (add_source s pid d).2.sources.length = s.sources.length + 1
    ∧ (add_source s pid d).2.nextProjectId = s.nextProjectId
    ∧ (add_source s pid d).2.now = s.now := by
  refine ⟨rfl, ?_, rfl, rfl⟩
  unfold add_source
  simp

theorem update_existing_nextProjectId (s : Store) (pid : Nat)
    (new : ProjectInfo) (url : String) :
    (update_existing_project s pid new url).nextProjectId = s.nextProjectId := by
  unfold update_existing_project
  split
  · rfl
  · split
    · show (update_project s pid _).2.nextProjectId = s.nextProjectId
      unfold update_project
      split <;> rfl
    · rfl

/-- **C10.** `update_project` on an id absent from the store returns
`false` and leaves the store completely unchanged; on a present id it
returns `true`, applies exactly the given field updates, stamps
`last_updated` with the current clock, increments `update_count` by
exactly one, and touches neither the sources table nor any other
project row. -/
theorem c10_update_project_contract (s : Store) (pid : Nat) (u : ProjUpdates) :
    (get_project_by_id s pid = none → update_project s pid u = (false, s))
    ∧ (∀ ex, get_project_by_id s pid = some ex →
        (update_project s pid u).1 = true
        ∧ get_project_by_id (update_project s pid u).2 pid
            = some (applyUpd u ex s.now)
        ∧ (applyUpd u ex s.now).update_count = ex.update_count + 1
        ∧ (applyUpd u ex s.now).last_updated = s.now
        ∧ (update_project s pid u).2.sources = s.sources
        ∧ ∀ q ∈ s.projects, q.id ≠ pid →
            q ∈ (update_project s pid u).2.projects) := by
  constructor
  · exact update_project_missing s pid u
  · intro ex hex
    obtain ⟨h1, hproj, hsrc, _, _, _, hfound⟩ :=
      update_project_found s pid u ex hex
    refine ⟨h1, hfound, rfl, rfl, hsrc, ?_⟩
    intro q hq hqid
    rw [hproj]
    have hfix : (fun p => if p.id == pid then applyUpd u p s.now else p) q = q := by
      simp [hqid]
    have hmem := List.mem_map_of_mem
      (fun p => if p.id == pid then applyUpd u p s.now else p) hq
    rwa [hfix] at hmem

/-- Witness for C10 at a concrete store: id 5 is absent (no-op, `false`),
id 1 is present (update applied). -/
theorem c10_update_project_contract_witness :
    update_project demoStore 5 {} = (false, demoStore)
    ∧ (update_project demoStore 1 { city := some "Jeddah" }).1 = true
    ∧ get_project_by_id (update_project demoStore 1 { city := some "Jeddah" }).2 1
        = some (applyUpd { city := some "Jeddah" } demoProj demoStore.now) :=
  ⟨(c10_update_project_contract demoStore 5 {}).1 rfl,
   ((c10_update_project_contract demoStore 1
      { city := some "Jeddah" }).2 demoProj rfl).1,
   ((c10_update_project_contract demoStore 1
      { city := some "Jeddah" }).2 demoProj rfl).2.1⟩

/-! ## C8: the tiered confidence bands -/

theorem le_foldl_max (a x : ℚ) (xs : List ℚ) :
    a ≤ xs.foldl max x ↔ a ≤ x ∨ ∃ y ∈ xs, a ≤ y := by
  induction xs generalizing x with
  | nil => simp
  | cons hd tl ih =>
    rw [List.foldl_cons, ih, le_max_iff]
    constructor
    · rintro ((hx | hh) | ⟨y, hy, hay⟩)
      · exact Or.inl hx
      · exact Or.inr ⟨hd, by simp, hh⟩
      · exact Or.inr ⟨y, by simp [hy], hay⟩
    · rintro (hx | ⟨y, hy, hay⟩)
      · exact Or.inl (Or.inl hx)
      · rcases List.mem_cons.mp hy with rfl | hy2
        · exact Or.inl (Or.inr hay)
        · exact Or.inr ⟨y, hy2, hay⟩

/-- The `max_rel ≥ 0.99` test of `_recompute_confidence` holds exactly
when some stored source has reliability at least 0.99 (the empty-list
default 0.5 is below the bar). -/
theorem high_rel_iff (srcs : List DBSource) :
    ((99/100 : ℚ)
        ≤ maxRelDefault (srcs.map (fun src => src.reliability_score)))
      ↔ ∃ src ∈ srcs, (99/100 : ℚ) ≤ src.reliability_score := by
  cases srcs with
  | nil =>
    simp only [List.map_nil, maxRelDefault]
    constructor
    · intro h; exact absurd h (by norm_num)
    · rintro ⟨src, hsrc, _⟩; simp at hsrc
  | cons hd tl =>
    show (99/100 : ℚ) ≤ (tl.map (fun src => src.reliability_score)).foldl max
        hd.reliability_score ↔ _
    rw [le_foldl_max]
    constructor
    · rintro (hh | ⟨y, hy, hay⟩)
      · exact ⟨hd, by simp, hh⟩
      · obtain ⟨src, hsrc, rfl⟩ := List.mem_map.mp hy
        exact ⟨src, by simp [hsrc], hay⟩
    · rintro ⟨src, hsrc, hrel⟩
      rcases List.mem_cons.mp hsrc with rfl | h2
      · exact Or.inl hrel
      · exact Or.inr ⟨src.reliability_score, List.mem_map_of_mem _ h2, hrel⟩

theorem confidence_band_official (srcs : List DBSource) (official : Bool)
    (h : official = true
      ∨ ∃ src ∈ srcs, (99/100 : ℚ) ≤ src.reliability_score) :
    confidence_band srcs official = (92/100, true) := by
  unfold confidence_band
  rw [if_pos]
  rw [Bool.or_eq_true]
  cases h with
  | inl h => exact Or.inl h
  | inr h => exact Or.inr (decide_eq_true ((high_rel_iff srcs).mpr h))

theorem confidence_band_not_official (srcs : List DBSource) (official : Bool)
    (hoff : official = false)
    (hrel : ∀ src ∈ srcs, src.reliability_score < 99/100) :
    confidence_band srcs official
      = if 2 ≤ srcs.length then (78/100, true) else (62/100, false) := by
  unfold confidence_band
  rw [if_neg]
  rw [Bool.or_eq_true]
  rintro (h | h)
  · rw [hoff] at h; exact Bool.false_ne_true h
  · obtain ⟨src, hsrc, hge⟩ := (high_rel_iff srcs).mp (of_decide_eq_true h)
    exact absurd hge (not_le.mpr (hrel src hsrc))

/-- The stored row after `_recompute_confidence`. -/
theorem recompute_confidence_found (s : Store) (pid : Nat) (official : Bool)
    (ex : DBProject) (hex : get_project_by_id s pid = some ex) :
    get_project_by_id (recompute_confidence s pid official) pid
      = some (applyUpd
          { confidence_score :=
              some (confidence_band (get_project_sources s pid) official).1
            is_verified :=
              some (confidence_band (get_project_sources s pid) official).2 }
          ex s.now) := by
  unfold recompute_confidence
  exact (update_project_found s pid _ ex hex).2.2.2.2.2.2

/-- **C8.** For every persisted project, the recomputation after source
corroboration sets exactly the tiered band: if the triggering item is
official or some stored source has reliability ≥ 0.99 the score becomes
0.92 with verified; otherwise with ≥ 2 stored sources it becomes 0.78
with verified; otherwise (exactly one non-official source) 0.62 without
verified. -/
theorem c8_recompute_confidence_bands (s : Store) (pid : Nat)
    (official : Bool) (ex : DBProject)
    (hex : get_project_by_id s pid = some ex) :
    ((official = true ∨ ∃ src ∈ get_project_sources s pid,
        (99/100 : ℚ) ≤ src.reliability_score) →
      (get_project_by_id (recompute_confidence s pid official) pid).map
          (fun p => (p.confidence_score, p.is_verified))
        = some (92/100, true))
    ∧ ((official = false
        ∧ (∀ src ∈ get_project_sources s pid,
            src.reliability_score < 99/100)
        ∧ 2 ≤ (get_project_sources s pid).length) →
      (get_project_by_id (recompute_confidence s pid official) pid).map
          (fun p => (p.confidence_score, p.is_verified))
        = some (78/100, true))
    ∧ ((official = false
        ∧ (∀ src ∈ get_project_sources s pid,
            src.reliability_score < 99/100)
        ∧ (get_project_sources s pid).length = 1) →
      (get_project_by_id (recompute_confidence s pid official) pid).map
          (fun p => (p.confidence_score, p.is_verified))
        = some (62/100, false)) := by
  have hfound := recompute_confidence_found s pid official ex hex
  refine ⟨?_, ?_, ?_⟩
  · intro h
    rw [hfound, confidence_band_official _ _ h]
    rfl
  · rintro ⟨hoff, hrel, hlen⟩
    rw [hfound, confidence_band_not_official _ _ hoff hrel, if_pos hlen]
    rfl
  · rintro ⟨hoff, hrel, hlen⟩
    rw [hfound, confidence_band_not_official _ _ hoff hrel,
      if_neg (by omega)]
    rfl

/-- Witness for C8: one non-official source of reliability 0.5 lands in
the 0.62/unverified band. -/
theorem c8_recompute_confidence_bands_witness :
    (get_project_by_id (recompute_confidence bandStore 1 false) 1).map
        (fun p => (p.confidence_score, p.is_verified))
      = some (62/100, false) :=
  (c8_recompute_confidence_bands bandStore 1 false bandProj rfl).2.2
    ⟨rfl,
     by
       intro src hsrc
       rw [show get_project_sources bandStore 1 = [bandSrc] from rfl] at hsrc
       rw [List.mem_singleton] at hsrc
       subst hsrc
       show (1/2 : ℚ) < 99/100
       norm_num,
     rfl⟩

/-! ## C7: merge-update augments, never clobbers -/

theorem fillField_keep (a b : Option String) (ha : truthyOpt a = true) :
    updOpt (fillField a b) a = a := by
  unfold fillField
  rw [ha]
  rfl

theorem fillField_change (a b : Option String)
    (h : updOpt (fillField a b) a ≠ a) :
    truthyOpt a = false ∧ truthyOpt b = true
    ∧ updOpt (fillField a b) a = b := by
  by_cases ha : truthyOpt a = true
  · exact absurd (fillField_keep a b ha) h
  · have ha2 : truthyOpt a = false := Bool.eq_false_iff.mpr ha
    by_cases hb : truthyOpt b = true
    · refine ⟨ha2, hb, ?_⟩
      have hf : fillField a b = b := by
        unfold fillField
        rw [ha2, hb]
        rfl
      rw [hf]
      cases b with
      | none => exact absurd hb (by simp [truthyOpt])
      | some v => rfl
    · exfalso
      apply h
      have hb2 : truthyOpt b = false := Bool.eq_false_iff.mpr hb
      have hf : fillField a b = none := by
        unfold fillField
        rw [hb2]
        simp
      rw [hf]
      rfl

/-- **C7, amended.** On a merge of a new extracted record into an existing
row: each of the seven checked fields is overwritten only when it is
empty (falsy) on the existing row and non-empty on the new record — every
already-populated field keeps its value, and the identity fields
(name, status, region, category) are never touched.  `last_updated` and
`update_count` are bumped only when at least one field is actually
filled; a merge that fills nothing leaves the store completely
unchanged. -/
theorem c7_merge_augments_never_clobbers (s : Store) (pid : Nat)
    (new : ProjectInfo) (url : String) (ex : DBProject)
    (hex : get_project_by_id s pid = some ex) :
    (updatesNonempty (mergeUpdates ex new) = false →
      update_existing_project s pid new url = s)
    ∧ (updatesNonempty (mergeUpdates ex new) = true →
      get_project_by_id (update_existing_project s pid new url) pid
        = some (applyUpd (mergeUpdates ex new) ex s.now)
      ∧ (applyUpd (mergeUpdates ex new) ex s.now).update_count
          = ex.update_count + 1
      ∧ (applyUpd (mergeUpdates ex new) ex s.now).last_updated = s.now)
    ∧ (∀ t : Nat,
      (applyUpd (mergeUpdates ex new) ex t).project_name = ex.project_name
      ∧ (applyUpd (mergeUpdates ex new) ex t).status = ex.status
      ∧ (applyUpd (mergeUpdates ex new) ex t).region = ex.region
      ∧ (applyUpd (mergeUpdates ex new) ex t).category = ex.category
      ∧ (truthyOpt ex.project_owner = true →
          (applyUpd (mergeUpdates ex new) ex t).project_owner
            = ex.project_owner)
      ∧ ((applyUpd (mergeUpdates ex new) ex t).project_owner
            ≠ ex.project_owner →
          truthyOpt ex.project_owner = false
          ∧ truthyOpt new.project_owner = true
          ∧ (applyUpd (mergeUpdates ex new) ex t).project_owner
              = new.project_owner)
      ∧ (truthyOpt ex.main_contractor = true →
          (applyUpd (mergeUpdates ex new) ex t).main_contractor
            = ex.main_contractor)
      ∧ ((applyUpd (mergeUpdates ex new) ex t).main_contractor
            ≠ ex.main_contractor →
          truthyOpt ex.main_contractor = false
          ∧ truthyOpt new.main_contractor = true
          ∧ (applyUpd (mergeUpdates ex new) ex t).main_contractor
              = new.main_contractor)
      ∧ (truthyOpt ex.consultant = true →
          (applyUpd (mergeUpdates ex new) ex t).consultant = ex.consultant)
      ∧ ((applyUpd (mergeUpdates ex new) ex t).consultant ≠ ex.consultant →
          truthyOpt ex.consultant = false
          ∧ truthyOpt new.consultant = true
          ∧ (applyUpd (mergeUpdates ex new) ex t).consultant
              = new.consultant)
      ∧ (truthyOpt ex.city = true →
          (applyUpd (mergeUpdates ex new) ex t).city = ex.city)
      ∧ ((applyUpd (mergeUpdates ex new) ex t).city ≠ ex.city →
          truthyOpt ex.city = false ∧ truthyOpt new.city = true
          ∧ (applyUpd (mergeUpdates ex new) ex t).city = new.city)
      ∧ (truthyOpt ex.description = true →
          (applyUpd (mergeUpdates ex new) ex t).description = ex.description)
      ∧ ((applyUpd (mergeUpdates ex new) ex t).description ≠ ex.description →
          truthyOpt ex.description = false
          ∧ truthyStr new.description = true
          ∧ (applyUpd (mergeUpdates ex new) ex t).description
              = some new.description)
      ∧ (truthyOpt ex.project_value = true →
          (applyUpd (mergeUpdates ex new) ex t).project_value
            = ex.project_value)
      ∧ ((applyUpd (mergeUpdates ex new) ex t).project_value
            ≠ ex.project_value →
          truthyOpt ex.project_value = false
          ∧ truthyOpt new.project_value = true
          ∧ (applyUpd (mergeUpdates ex new) ex t).project_value
              = new.project_value)
      ∧ (truthyOpt ex.start_date = true →
          (applyUpd (mergeUpdates ex new) ex t).start_date = ex.start_date)
      ∧ ((applyUpd (mergeUpdates ex new) ex t).start_date ≠ ex.start_date →
          truthyOpt ex.start_date = false
          ∧ truthyOpt new.start_date = true
          ∧ (applyUpd (mergeUpdates ex new) ex t).start_date
              = new.start_date)) := by
  refine ⟨?_, ?_, ?_⟩
  · intro hemp
    unfold update_existing_project
    split
    · rfl
    · rename_i existing heq
      rw [hex] at heq
      injection heq with heq
      subst heq
      rw [if_neg (by rw [hemp]; exact Bool.false_ne_true)]
  · intro hne
    refine ⟨?_, rfl, rfl⟩
    have hfound :=
      (update_project_found s pid (mergeUpdates ex new) ex hex).2.2.2.2.2.2
    unfold update_existing_project
    split
    · rename_i heq
      rw [hex] at heq
      exact Option.noConfusion heq
    · rename_i existing heq
      rw [hex] at heq
      injection heq with heq
      subst heq
      rw [if_pos hne]
      exact hfound
  · intro t
    exact ⟨rfl, rfl, rfl, rfl,
      fillField_keep ex.project_owner new.project_owner,
      fillField_change ex.project_owner new.project_owner,
      fillField_keep ex.main_contractor new.main_contractor,
      fillField_change ex.main_contractor new.main_contractor,
      fillField_keep ex.consultant new.consultant,
      fillField_change ex.consultant new.consultant,
      fillField_keep ex.city new.city,
      fillField_change ex.city new.city,
      fillField_keep ex.description (some new.description),
      fillField_change ex.description (some new.description),
      fillField_keep ex.project_value new.project_value,
      fillField_change ex.project_value new.project_value,
      fillField_keep ex.start_date new.start_date,
      fillField_change ex.start_date new.start_date⟩

/-- **C7, counterexample.** On a fully populated row, a corroborating
record fills nothing, and — contrary to the claim — `update_count` (and
`last_updated`) are NOT bumped: the merge is a complete no-op. -/
theorem c7_counterexample :
    update_existing_project fullStore 3 corrNew "u" = fullStore
    ∧ (get_project_by_id (update_existing_project fullStore 3 corrNew "u") 3).map
        DBProject.update_count = some 0
    ∧ fullStored.update_count = 0 :=
  ⟨rfl, rfl, rfl⟩

/-- Witness for the amended C7: on a row with empty stakeholder fields
the merge fills them and bumps `update_count` by exactly one. -/
theorem c7_merge_augments_never_clobbers_witness :
    get_project_by_id (update_existing_project gapStore 9 corrNew "u") 9
      = some (applyUpd (mergeUpdates gapStored corrNew) gapStored 5)
    ∧ (applyUpd (mergeUpdates gapStored corrNew) gapStored 5).update_count = 1 :=
  ⟨((c7_merge_augments_never_clobbers gapStore 9 corrNew "u" gapStored
      rfl).2.1 (by decide)).1,
   ((c7_merge_augments_never_clobbers gapStore 9 corrNew "u" gapStored
      rfl).2.1 (by decide)).2.1⟩

/-! ## C3: summary consistency of the batch run -/

/-- Inversion of a successful `_add_new_project`. -/
theorem add_new_project_some_inv (s : Store) (pd : PData) (u t : String)
    (pid : Nat) (s1 : Store)
    (h : add_new_project s pd u t = (some pid, s1)) :
    pid = s.nextProjectId ∧ s1.nextProjectId = s.nextProjectId + 1 := by
  unfold add_new_project at h
  cases hr : pd.info.region with
  | none =>
    rw [hr] at h
    exact absurd (congrArg Prod.fst h) (by simp)
  | some r =>
    rw [hr] at h
    have h1 := congrArg Prod.fst h
    have h2 := congrArg Prod.snd h
    simp only [] at h1 h2
    injection h1 with h1
    exact ⟨h1.symm, by rw [← h2]; rfl⟩

/-- Inversion of a failed `_add_new_project`: only a `None` region can
fail. -/
theorem add_new_project_none_inv (s : Store) (pd : PData) (u t : String)
    (s1 : Store) (h : add_new_project s pd u t = (none, s1)) :
    pd.info.region = none := by
  cases hr : pd.info.region with
  | none => rfl
  | some r =>
    unfold add_new_project at h
    rw [hr] at h
    exact absurd (congrArg Prod.fst h) (by simp)

/-- Every branch of the batch step on an item with non-empty text bumps
exactly one of the four outcome counters (given ids start at 1), keeps
`scraped`, and preserves the id invariant. -/
theorem process_item_counts (cs : Counters × Store) (item : RawItem)
    (htext : (rawTextOf item).isEmpty = false)
    (hid : 1 ≤ cs.2.nextProjectId) :
    ((process_item cs item).1.added + (process_item cs item).1.updated
      + (process_item cs item).1.rejected
      + (process_item cs item).1.errors
      = cs.1.added + cs.1.updated + cs.1.rejected + cs.1.errors + 1)
    ∧ (process_item cs item).1.scraped = cs.1.scraped
    ∧ 1 ≤ (process_item cs item).2.nextProjectId := by
  unfold process_item
  rw [htext]
  rw [if_neg Bool.false_ne_true]
  split
  · -- extraction rejected
    refine ⟨?_, rfl, hid⟩
    show cs.1.added + cs.1.updated + (cs.1.rejected + 1) + cs.1.errors
      = cs.1.added + cs.1.updated + cs.1.rejected + cs.1.errors + 1
    omega
  · -- extraction succeeded
    rename_i info hext
    split
    · -- duplicate: update path
      rename_i pid hdup
      refine ⟨?_, rfl, ?_⟩
      · show cs.1.added + (cs.1.updated + 1) + cs.1.rejected + cs.1.errors
          = cs.1.added + cs.1.updated + cs.1.rejected + cs.1.errors + 1
        omega
      show 1 ≤ (update_existing_project cs.2 pid info (urlOf item)).nextProjectId
      rw [update_existing_nextProjectId]
      exact hid
    · -- no duplicate
      split
      · -- above threshold: insert attempt
        split
        · -- insert returned an id
          rename_i pid s1 hadd
          obtain ⟨hpid, hnext⟩ :=
            add_new_project_some_inv cs.2 (batchPData info) (urlOf item)
              (stypeOf item) pid s1 hadd
          split
          · refine ⟨?_, rfl, ?_⟩
            · show (cs.1.added + 1) + cs.1.updated + cs.1.rejected + cs.1.errors
                = cs.1.added + cs.1.updated + cs.1.rejected + cs.1.errors + 1
              omega
            · show 1 ≤ s1.nextProjectId
              omega
          · -- id 0 cannot happen when ids start at 1
            rename_i hzero
            exact absurd hpid (by omega)
        · -- insert failed: impossible, the accepted record has a region
          rename_i s1 hadd
          have hnone :=
            add_new_project_none_inv cs.2 (batchPData info) (urlOf item)
              (stypeOf item) s1 hadd
          have hreg := (extract_with_rules_ok _ _ _ hext).2.2.2.2.2
          rw [show (batchPData info).info.region = info.region from rfl] at hnone
          rw [hnone] at hreg
          exact absurd hreg (by simp)
      · -- below threshold: rejected
        refine ⟨?_, rfl, hid⟩
        show cs.1.added + cs.1.updated + (cs.1.rejected + 1) + cs.1.errors
          = cs.1.added + cs.1.updated + cs.1.rejected + cs.1.errors + 1
        omega

theorem batch_fold_counts (items : List RawItem) :
    ∀ cs : Counters × Store,
      (∀ it ∈ items, (rawTextOf it).isEmpty = false) →
      1 ≤ cs.2.nextProjectId →
      ((items.foldl process_item cs).1.added
        + (items.foldl process_item cs).1.updated
        + (items.foldl process_item cs).1.rejected
        + (items.foldl process_item cs).1.errors
        = cs.1.added + cs.1.updated + cs.1.rejected + cs.1.errors
          + items.length)
      ∧ (items.foldl process_item cs).1.scraped = cs.1.scraped := by
  induction items with
  | nil =>
    intro cs _ _
    simp
  | cons it its ih =>
    intro cs hall hid
    obtain ⟨h1, h2, h3⟩ :=
      process_item_counts cs it (hall it (by simp)) hid
    obtain ⟨g1, g2⟩ := ih (process_item cs it)
      (fun x hx => hall x (by simp [hx])) h3
    rw [List.foldl_cons]
    constructor
    · rw [g1]
      rw [List.length_cons]
      omega
    · rw [g2, h2]

/-- **C3, amended.** For every batch run in which every item carries
non-empty text (and with the autoincrement ids starting at 1, as SQLite
does), `added + updated + rejected + errors = scraped`.  (The original
claim fails: an item with missing/empty text is skipped without touching
any counter — see the counterexample.) -/
theorem c3_summary_consistency_amended (items : List RawItem) (s0 : Store)
    (htext : ∀ it ∈ items, (rawTextOf it).isEmpty = false)
    (hid : 1 ≤ s0.nextProjectId) :
    (run_full_pipeline s0 items).1.added
      + (run_full_pipeline s0 items).1.updated
      + (run_full_pipeline s0 items).1.rejected
      + (run_full_pipeline s0 items).1.errors
      = (run_full_pipeline s0 items).1.scraped := by
  unfold run_full_pipeline
  obtain ⟨h1, h2⟩ :=
    batch_fold_counts items ({ scraped := items.length }, s0) htext hid
  rw [h1, h2]
  show 0 + 0 + 0 + 0 + items.length = items.length
  omega

/-- **C3, counterexample.** A single item with no text: the batch run
reports `scraped = 1` but `added + updated + rejected + errors = 0` —
the item is silently dropped. -/
theorem c3_counterexample :
    ¬ ((run_full_pipeline {} [{}]).1.added
        + (run_full_pipeline {} [{}]).1.updated
        + (run_full_pipeline {} [{}]).1.rejected
        + (run_full_pipeline {} [{}]).1.errors
        = (run_full_pipeline {} [{}]).1.scraped) := by
  decide

/-- Witness for the amended C3 on a one-item batch with non-empty text. -/
theorem c3_summary_consistency_amended_witness :
    (∀ it ∈ [parkItemBatch], (rawTextOf it).isEmpty = false)
    ∧ ((run_full_pipeline {} [parkItemBatch]).1.added
        + (run_full_pipeline {} [parkItemBatch]).1.updated
        + (run_full_pipeline {} [parkItemBatch]).1.rejected
        + (run_full_pipeline {} [parkItemBatch]).1.errors
        = (run_full_pipeline {} [parkItemBatch]).1.scraped) :=
  ⟨by decide,
   c3_summary_consistency_amended [parkItemBatch] {} (by decide)
     (by decide)⟩

/-! ## C4: batch versus streaming aggregate counts -/

theorem process_item_scraped (cs : Counters × Store) (item : RawItem) :
    (process_item cs item).1.scraped = cs.1.scraped := by
  unfold process_item
  split
  · rfl
  · split
    · rfl
    · split
      · rfl
      · split
        · split
          · split <;> rfl
          · rfl
        · rfl

theorem streaming_step_scraped (cs : Counters × Store) (item : RawItem) :
    (streaming_step cs item).1.scraped = cs.1.scraped := by
  unfold streaming_step
  split
  · rfl
  · split
    · rfl
    · split
      · rfl
      · split
        · rfl
        · split
          · split <;> rfl
          · rfl

theorem foldl_scraped (f : Counters × Store → RawItem → Counters × Store)
    (hf : ∀ cs it, (f cs it).1.scraped = cs.1.scraped) (items : List RawItem) :
    ∀ cs, (items.foldl f cs).1.scraped = cs.1.scraped := by
  induction items with
  | nil => intro cs; rfl
  | cons it its ih =>
    intro cs
    rw [List.foldl_cons, ih (f cs it), hf cs it]

/-- **C4, counterexample.** The batch and streaming pipelines are not two
views of one reduction: on a single item with no text the batch run
counts nothing while the streaming run counts a rejection, so the final
aggregate counts differ. -/
theorem c4_counterexample :
    (run_full_pipeline {} [{}]).1.rejected = 0
    ∧ (run_streaming_pipeline {} [{}]).1.rejected = 1 := by
  exact ⟨by decide, by decide⟩

/-- **C4, amended.** The two execution modes agree on the `scraped`
count for every input list and every initial store; the remaining
counters follow genuinely different per-item algorithms (different
duplicate gates, different status/confidence gates, different counting of
text-less items) and can disagree — see the counterexample. -/
theorem c4_scraped_agrees (items : List RawItem) (s0 : Store) :
    (run_full_pipeline s0 items).1.scraped
      = (run_streaming_pipeline s0 items).1.scraped := by
  unfold run_full_pipeline run_streaming_pipeline
  rw [foldl_scraped process_item process_item_scraped items,
    foldl_scraped streaming_step streaming_step_scraped items]

/-! ## C5: the authoritative merge gate -/

theorem is_duplicate_iff (p1 : ProjectInfo) (p2 : DBProject) :
    is_duplicate p1 p2 = true
      ↔ 85/100 < simple_similarity p1.project_name p2.project_name
        ∧ p1.region = some p2.region := by
  unfold is_duplicate
  split
  · rename_i hlt
    simp only [beq_iff_eq]
    exact ⟨fun h => ⟨hlt, h⟩, fun h => h.2⟩
  · rename_i hnlt
    constructor
    · intro h
      exact Bool.noConfusion h
    · intro h
      exact absurd h.1 hnlt

theorem firstDuplicate_some (info : ProjectInfo) (l : List DBProject)
    (pid : Nat) (h : firstDuplicate info l = some pid) :
    ∃ ex ∈ l, ex.id = pid ∧ is_duplicate info ex = true := by
  induction l with
  | nil => exact Option.noConfusion h
  | cons hd tl ih =>
    unfold firstDuplicate at h
    split at h
    · rename_i hdup
      injection h with h
      exact ⟨hd, by simp, h, hdup⟩
    · obtain ⟨ex, hm, hi, hd2⟩ := ih h
      exact ⟨ex, by simp [hm], hi, hd2⟩

/-- **C5, amended.** On the BATCH path the claim holds: whenever the
batch step decides Merge (its `updated` counter moves), some pre-filter
candidate passed the authoritative gate — name similarity strictly above
0.85 AND equal region.  (On the streaming path the claim fails: the first
pre-filter candidate is merged with no similarity or region check — see
the counterexample.) -/
theorem c5_batch_merge_needs_similarity_and_region (cs : Counters × Store)
    (item : RawItem)
    (h : (process_item cs item).1.updated ≠ cs.1.updated) :
    ∃ info ex,
      extract_project_info (rawTextOf item) (urlOf item) = .ok info
      ∧ ex ∈ find_similar_projects cs.2 info.project_name
      ∧ 85/100 < simple_similarity info.project_name ex.project_name
      ∧ info.region = some ex.region := by
  revert h
  unfold process_item
  split
  · intro h
    exact absurd rfl h
  · split
    · intro h
      exact absurd rfl h
    · rename_i info hext
      split
      · rename_i pid hdup
        intro _
        obtain ⟨ex, hmem, _, hdup2⟩ :=
          firstDuplicate_some info (find_similar_projects cs.2 info.project_name)
            pid hdup
        obtain ⟨hsim, hreg⟩ := (is_duplicate_iff info ex).mp hdup2
        exact ⟨info, ex, hext, hmem, hsim, hreg⟩
      · split
        · split
          · split
            · intro h
              exact absurd rfl h
            · intro h
              exact absurd rfl h
          · intro h
            exact absurd rfl h
        · intro h
          exact absurd rfl h

/-- **C5, counterexample.** The streaming path merges with the first
20-character-prefix candidate even though the authoritative gate fails:
the extracted `King Salman Park` record (region Riyadh) is merged into a
stored `King Salman Park residential towers alpha beta gamma` row
(region Makkah, Jaccard similarity 3/8), counting `updated`, adding no
new project. -/
theorem c5_counterexample :
    (run_streaming_pipeline farStore [parkItem]).1.updated = 1
    ∧ (run_streaming_pipeline farStore [parkItem]).1.added = 0
    ∧ (run_streaming_pipeline farStore [parkItem]).2.projects.length = 1
    ∧ (extract_with_rules parkText parkUrl).map
        (fun i => is_duplicate i farStored) = .ok false := by
  refine ⟨by decide, by decide, by decide, ?_⟩
  have hx : extract_with_rules parkText parkUrl = .ok parkInfo := by rfl
  rw [hx]
  show Except.ok (is_duplicate parkInfo farStored) = Except.ok false
  have hsim : simple_similarity parkInfo.project_name farStored.project_name
      = ((3 : Nat) : ℚ) / ((8 : Nat) : ℚ) := by rfl
  unfold is_duplicate
  rw [if_neg]
  rw [hsim]
  intro hlt
  rw [show ((3 : Nat) : ℚ) / ((8 : Nat) : ℚ) = 3/8 by norm_num] at hlt
  norm_num at hlt

/-- The batch step on `sameStore` takes the update path: computed by hand
because the similarity comparison is rational arithmetic the kernel does
not evaluate. -/
theorem batch_step_sameStore_updated :
    (process_item ({}, sameStore) parkItemBatch).1.updated = 1 := by
  have hx : extract_project_info (rawTextOf parkItemBatch) (urlOf parkItemBatch)
      = .ok parkInfo := by rfl
  have hsim : simple_similarity parkInfo.project_name sameStored.project_name
      = ((3 : Nat) : ℚ) / ((3 : Nat) : ℚ) := by rfl
  have hgt : 85/100 < simple_similarity parkInfo.project_name
      sameStored.project_name := by
    rw [hsim]
    norm_num
  have hdup : is_duplicate parkInfo sameStored = true := by
    unfold is_duplicate
    rw [if_pos hgt]
    rfl
  have hfs : find_similar_projects sameStore parkInfo.project_name
      = [sameStored] := by rfl
  have hfd : firstDuplicate parkInfo
      (find_similar_projects sameStore parkInfo.project_name) = some 4 := by
    rw [hfs]
    show (if is_duplicate parkInfo sameStored then some sameStored.id
          else firstDuplicate parkInfo []) = some 4
    rw [hdup]
    rfl
  unfold process_item
  rw [show (rawTextOf parkItemBatch).isEmpty = false from rfl]
  rw [if_neg Bool.false_ne_true]
  split
  · rename_i e heq
    rw [hx] at heq
    exact Except.noConfusion heq
  · rename_i info heq
    rw [hx] at heq
    injection heq with heq
    subst heq
    split
    · rfl
    · rename_i hnone
      rw [hfd] at hnone
      exact Option.noConfusion hnone

/-- Witness for the amended C5: a genuine duplicate (same name, same
region) makes the batch step take the merge path, and the gate facts
hold. -/
theorem c5_batch_merge_needs_similarity_and_region_witness :
    ∃ info ex,
      extract_project_info (rawTextOf parkItemBatch) (urlOf parkItemBatch)
        = .ok info
      ∧ ex ∈ find_similar_projects sameStore info.project_name
      ∧ 85/100 < simple_similarity info.project_name ex.project_name
      ∧ info.region = some ex.region :=
  c5_batch_merge_needs_similarity_and_region ({}, sameStore) parkItemBatch
    (by rw [batch_step_sameStore_updated]; decide)

/-! ## C6: idempotence of resubmission -/

/-- **C6, counterexample.** Submitting the same item twice through the
streaming pipeline yields one `ProjectRecord` but THREE source rows for
the URL, not one: the first submission already inserts two rows (one
inside `_add_new_project`, one at the pipeline call site) and the
resubmission appends a third. -/
theorem c6_counterexample :
    (run_streaming_pipeline {} [parkItem, parkItem]).2.projects.length = 1
    ∧ ((run_streaming_pipeline {} [parkItem, parkItem]).2.sources.filter
        (fun src => src.source_url == parkUrl)).length ≠ 1 := by
  exact ⟨by decide, by decide⟩

/-- **C6, amended.** Resubmitting the same `RawItem` merges into the one
existing `ProjectRecord` (no duplicate project), but `SourceRecord` rows
for the URL are duplicated, because `add_source` has no idempotence
guard — it unconditionally appends a row on every call; concretely, two
submissions of the same item leave one project and three identical-URL
source rows. -/
theorem c6_resubmission_one_project_duplicated_sources :
    (∀ (s : Store) (pid : Nat) (d : SourceData),
      (add_source s pid d).2.sources.length = s.sources.length + 1)
    ∧ (run_streaming_pipeline {} [parkItem, parkItem]).2.projects.length = 1
    ∧ ((run_streaming_pipeline {} [parkItem, parkItem]).2.sources.filter
        (fun src => src.source_url == parkUrl)).length = 3 := by
  refine ⟨?_, by decide, by decide⟩
  intro s pid d
  unfold add_source
  simp

end KSA
